import Mathlib

/-!
Verification development for a small asynchronous Rick-and-Morty API client
(`src/models.py`, `src/client.py`).

The Python code consists of three pydantic v2 models (`CharacterOrigin`,
`CharacterLocation`, `Character`) and a client whose `get_character` builds
`{base_url}/character/{id}`, issues one HTTP GET, calls
`response.raise_for_status()` (httpx: succeeds exactly on 2xx), decodes the
JSON body and runs `Character.model_validate` on it.

We shallowly embed:
* decoded JSON bodies as a `Json` inductive;
* pydantic validation of the three models as `validate : Json → Except
  ValidationError Character`, following the field declarations of
  `src/models.py` line by line.  Pydantic v2 semantics that the source relies
  on are embedded explicitly:
  - `HttpUrl` accepts exactly syntactically valid absolute http/https URLs
    with a nonempty host (modelled by `isHttpUrl`) and stores them in a
    normalized form in which a URL without a path component gains a trailing
    slash (modelled by `normalizeHttpUrl`);
  - model config is per-model: `Character.Config` sets `frozen = True` and
    `str_strip_whitespace = True`, while `CharacterOrigin` and
    `CharacterLocation` declare no config and therefore keep pydantic's
    defaults (`frozen = False`, no whitespace stripping);
  - `str_strip_whitespace` strips surrounding whitespace from `str`-typed
    fields of the model that declares it (modelled by `String.trim`);
  - a missing `episode` key defaults to the empty list
    (`Field(default_factory=list)` in the source);
  - unknown keys are ignored.
  Pydantic reports all field errors at once; our embedding short-circuits at
  the first failing field (in declaration order), which agrees with pydantic
  on whether validation fails and, whenever the input has a single offending
  field, on which field is named.
* the client's request construction and response handling as `requestUrl`,
  `getCharacterTrace` and `getCharacterResponse`.
-/

/-- Decoded JSON values, the input type of `Character.model_validate`.
Numbers are restricted to integers, which covers every body the API and the
repository's tests exchange. -/
inductive Json where
  | null : Json
  | str : String → Json
  | num : Int → Json
  | arr : List Json → Json
  | obj : List (String × Json) → Json
  deriving Repr

/-- Key lookup in a JSON object (Python `dict` access); `none` on non-objects
and missing keys. -/
def Json.lookup : Json → String → Option Json
  | .obj fields, k => List.lookup k fields
  | _, _ => none

/-- `pre` is a prefix of `s` (character-level `String.startsWith`). -/
def strHasPrefix (s pre : String) : Bool :=
  pre.data.isPrefixOf s.data

/-- The host component of what follows a URL scheme: the characters before
the first `/`, `?` or `#`. -/
def urlHost (rest : List Char) : List Char :=
  rest.takeWhile fun c => c ≠ '/' && c ≠ '?' && c ≠ '#'

/-- Model of pydantic `HttpUrl` syntactic acceptance: an absolute URL with
scheme `http` or `https` and a nonempty host. -/
def isHttpUrl (s : String) : Bool :=
  if strHasPrefix s "https://" then !(urlHost (s.data.drop 8)).isEmpty
  else if strHasPrefix s "http://" then !(urlHost (s.data.drop 7)).isEmpty
  else false

/-- Model of pydantic v2 URL normalization, restricted to the behavior the
claims exercise: a URL whose authority is not followed by a path component is
serialized with a trailing slash (`https://example.com` becomes
`https://example.com/`); URLs that already have a path are kept verbatim. -/
def normalizeHttpUrl (s : String) : String :=
  let rest := if strHasPrefix s "https://" then s.data.drop 8 else s.data.drop 7
  if rest.contains '/' then s else s ++ "/"

/-- Python `str.strip()` as applied by pydantic's `str_strip_whitespace`:
surrounding-whitespace removal. -/
def pyStrip (s : String) : String :=
  ⟨((s.data.dropWhile Char.isWhitespace).reverse.dropWhile Char.isWhitespace).reverse⟩

/-- Model of a pydantic model config; the two keys set by
`Character.Config` in `src/models.py`. -/
structure ModelConfig where
  frozen : Bool
  strStripWhitespace : Bool
  deriving Repr, DecidableEq

/-- `src/models.py` `CharacterOrigin`: `name: str`, `url: HttpUrl`.
The stored `url` is the pydantic-normalized rendering. -/
structure CharacterOrigin where
  name : String
  url : String
  deriving Repr, DecidableEq

/-- `src/models.py` `CharacterLocation`: `name: str`, `url: HttpUrl`. -/
structure CharacterLocation where
  name : String
  url : String
  deriving Repr, DecidableEq

/-- `src/models.py` `Character`, fields in declaration order.  URL-typed
fields store the pydantic-normalized rendering. -/
structure Character where
  id : Int
  name : String
  status : String
  species : String
  type : String
  gender : String
  origin : CharacterOrigin
  location : CharacterLocation
  image : String
  episode : List String
  url : String
  created : String
  deriving Repr, DecidableEq

/-- `CharacterOrigin` declares no `Config`, so pydantic defaults apply:
not frozen, no whitespace stripping. -/
def CharacterOrigin.config : ModelConfig := ⟨false, false⟩

/-- `CharacterLocation` declares no `Config`: pydantic defaults. -/
def CharacterLocation.config : ModelConfig := ⟨false, false⟩

/-- `Character.Config` from `src/models.py`: `frozen = True`,
`str_strip_whitespace = True`. -/
def Character.config : ModelConfig := ⟨true, true⟩

/-- A pydantic `ValidationError`, naming the offending field and the
constraint violated. -/
inductive ValidationError where
  | missing : String → ValidationError
  | invalidType : String → ValidationError
  | invalidUrl : String → ValidationError
  deriving Repr, DecidableEq

/-- Extract a required `str`-typed field, applying the given config's
whitespace stripping. -/
def getStrField (cfg : ModelConfig) (j : Json) (k : String) :
    Except ValidationError String :=
  match j.lookup k with
  | some (.str s) => .ok (if cfg.strStripWhitespace then pyStrip s else s)
  | some _ => .error (.invalidType k)
  | none => .error (.missing k)

/-- Extract a required `HttpUrl`-typed field: the string must pass the URL
check and is stored normalized. -/
def getUrlField (j : Json) (k : String) : Except ValidationError String :=
  match j.lookup k with
  | some (.str s) =>
      if isHttpUrl s then .ok (normalizeHttpUrl s) else .error (.invalidUrl k)
  | some _ => .error (.invalidType k)
  | none => .error (.missing k)

/-- Extract the required `int`-typed `id` field. -/
def getIntField (j : Json) (k : String) : Except ValidationError Int :=
  match j.lookup k with
  | some (.num n) => .ok n
  | some _ => .error (.invalidType k)
  | none => .error (.missing k)

/-- Validate a nested `name`/`url` submodel (`CharacterOrigin` or
`CharacterLocation`).  These models declare no config, so their `name` is
stored without whitespace stripping.  `pre` prefixes field names in errors. -/
def validateLocationRef (pre : String) (j : Json) :
    Except ValidationError (String × String) := do
  let name ← getStrField CharacterOrigin.config j "name"
  let url ←
    match j.lookup "url" with
    | some (.str s) =>
        if isHttpUrl s then pure (normalizeHttpUrl s)
        else Except.error (.invalidUrl (pre ++ ".url"))
    | some _ => Except.error (.invalidType (pre ++ ".url"))
    | none => Except.error (.missing (pre ++ ".url"))
  pure (name, url)

/-- Extract a required nested-model field as a JSON object. -/
def getObjField (j : Json) (k : String) : Except ValidationError Json :=
  match j.lookup k with
  | some o@(.obj _) => .ok o
  | some _ => .error (.invalidType k)
  | none => .error (.missing k)

/-- Validate one element of the `episode` array: it must be a string passing
the URL check, and is stored normalized. -/
def validateEpisodeElem (x : Json) : Except ValidationError String :=
  match x with
  | .str s =>
      if isHttpUrl s then .ok (normalizeHttpUrl s)
      else .error (.invalidUrl "episode")
  | _ => .error (.invalidType "episode")

/-- Element-wise validation of a JSON array, in order, stopping at the first
failing element. -/
def mapExcept (f : Json → Except ValidationError String) :
    List Json → Except ValidationError (List String)
  | [] => .ok []
  | x :: xs => do
      let y ← f x
      let ys ← mapExcept f xs
      pure (y :: ys)

/-- Validate the `episode` field: absent defaults to `[]`
(`Field(default_factory=list)`); present, it must be a JSON array of valid
URLs, each stored normalized. -/
def getEpisodeField (j : Json) : Except ValidationError (List String) :=
  match j.lookup "episode" with
  | none => .ok []
  | some (.arr xs) => mapExcept validateEpisodeElem xs
  | some _ => .error (.invalidType "episode")

/-- `Character.model_validate` from `src/models.py`: fields are validated in
declaration order; any failure yields a `ValidationError` and no `Character`
value escapes. -/
def validate (j : Json) : Except ValidationError Character := do
  let id ← getIntField j "id"
  let name ← getStrField Character.config j "name"
  let status ← getStrField Character.config j "status"
  let species ← getStrField Character.config j "species"
  let ty ← getStrField Character.config j "type"
  let gender ← getStrField Character.config j "gender"
  let originJson ← getObjField j "origin"
  let origin ← validateLocationRef "origin" originJson
  let locationJson ← getObjField j "location"
  let location ← validateLocationRef "location" locationJson
  let image ← getUrlField j "image"
  let episode ← getEpisodeField j
  let url ← getUrlField j "url"
  let created ← getStrField Character.config j "created"
  pure
    { id := id, name := name, status := status, species := species,
      type := ty, gender := gender,
      origin := ⟨origin.1, origin.2⟩, location := ⟨location.1, location.2⟩,
      image := image, episode := episode, url := url, created := created }

/-- Re-serialization of a validated `Character` back to a JSON object
(pydantic `model_dump` in JSON mode): URL-typed fields render their stored
(normalized) URL. -/
def Character.serialize (c : Character) : Json :=
  .obj
    [("id", .num c.id), ("name", .str c.name), ("status", .str c.status),
     ("species", .str c.species), ("type", .str c.type),
     ("gender", .str c.gender),
     ("origin", .obj [("name", .str c.origin.name), ("url", .str c.origin.url)]),
     ("location", .obj [("name", .str c.location.name), ("url", .str c.location.url)]),
     ("image", .str c.image), ("episode", .arr (c.episode.map .str)),
     ("url", .str c.url), ("created", .str c.created)]

/-! ## Client component (`src/client.py`) -/

/-- An outbound HTTP request, as issued by `self._client.get(url)`. -/
structure Request where
  method : String
  url : String
  deriving Repr, DecidableEq

/-- A (mocked) HTTP response: status code and decoded JSON body, the two
pieces of the response that `get_character` consumes. -/
structure MockResponse where
  status : Nat
  body : Json
  deriving Repr

/-- The failures `get_character` can surface on a received response:
`httpx.HTTPStatusError` raised by `raise_for_status` (carrying the status
code and the response body), or the pydantic `ValidationError` propagating
unchanged from `Character.model_validate`. -/
inductive ClientError where
  | httpStatusError : Nat → Json → ClientError
  | validationError : ValidationError → ClientError
  deriving Repr

/-- Default `base_url` of `RickAndMortyClient` (`BASE_URL` in
`src/client.py`). -/
def BASE_URL : String := "https://rickandmortyapi.com/api"

/-- `url = f"{self._base_url}/character/{character_id}"`: Python renders the
integer id in decimal (with a leading minus sign when negative). -/
def requestUrl (baseUrl : String) (characterId : Int) : String :=
  baseUrl ++ "/character/" ++ toString characterId

/-- The sequence of HTTP requests a single `get_character(character_id)` call
issues: the body of `get_character` contains exactly one
`await self._client.get(url)`, so the trace is one GET to `requestUrl`. -/
def getCharacterTrace (baseUrl : String) (characterId : Int) : List Request :=
  [⟨"GET", requestUrl baseUrl characterId⟩]

/-- httpx `Response.is_success`: status in the 2xx range;
`raise_for_status()` returns normally exactly on these statuses and raises
`HTTPStatusError` otherwise. -/
def isSuccess (status : Nat) : Bool :=
  200 ≤ status && status < 300

/-- Response handling of `get_character`: `raise_for_status()` first (so a
non-2xx response raises `HTTPStatusError` with the status and body, and the
body is never parsed as a Character), then `response.json()` is fed to
`Character.model_validate`. -/
def getCharacterResponse (resp : MockResponse) : Except ClientError Character :=
  if isSuccess resp.status then
    match validate resp.body with
    | .ok c => .ok c
    | .error e => .error (.validationError e)
  else
    .error (.httpStatusError resp.status resp.body)

/-! ## Attribute assignment (pydantic mutation semantics)

Pydantic v2 `__setattr__` on a model instance raises a `frozen_instance`
error when the model's config sets `frozen = True`, and otherwise performs
the assignment.  We embed an attempted field assignment as an update
function applied under the model's config. -/

/-- Outcome of an attempted attribute assignment on a pydantic model. -/
inductive SetAttrError where
  | frozenInstance : SetAttrError
  deriving Repr, DecidableEq

/-- Pydantic `__setattr__`: fails with `frozen_instance` when the model's
config is frozen, otherwise mutates the instance to `update x`. -/
def pySetAttr {α : Type} (cfg : ModelConfig) (update : α → α) (x : α) :
    Except SetAttrError α :=
  if cfg.frozen then .error .frozenInstance else .ok (update x)

deriving instance DecidableEq for Except

/-! ## Concrete response bodies -/

/-- The mocked response body of `test_get_character_success` in
`src/tests/test_client.py`. -/
def fixtureBody : Json :=
  .obj
    [("id", .num 1), ("name", .str "Rick Sanchez"), ("status", .str "Alive"),
     ("species", .str "Human"), ("type", .str ""), ("gender", .str "Male"),
     ("origin", .obj [("name", .str "Earth (C-137)"),
       ("url", .str "https://rickandmortyapi.com/api/location/1")]),
     ("location", .obj [("name", .str "Earth (Replacement Dimension)"),
       ("url", .str "https://rickandmortyapi.com/api/location/20")]),
     ("image", .str "https://rickandmortyapi.com/api/character/avatar/1.jpeg"),
     ("episode", .arr [.str "https://rickandmortyapi.com/api/episode/1",
       .str "https://rickandmortyapi.com/api/episode/2"]),
     ("url", .str "https://rickandmortyapi.com/api/character/1"),
     ("created", .str "2017-11-04T18:48:46.250Z")]

/-- The literal JSON body shown in spec §6, transcribed field for field;
note its `episode` array has exactly one element. -/
def spec6Body : Json :=
  .obj
    [("id", .num 1), ("name", .str "Rick Sanchez"), ("status", .str "Alive"),
     ("species", .str "Human"), ("type", .str ""), ("gender", .str "Male"),
     ("origin", .obj [("name", .str "Earth (C-137)"),
       ("url", .str "https://.../location/1")]),
     ("location", .obj [("name", .str "Earth (Replacement Dimension)"),
       ("url", .str "https://.../location/20")]),
     ("image", .str "https://.../avatar/1.jpeg"),
     ("episode", .arr [.str "https://.../episode/1"]),
     ("url", .str "https://.../character/1"),
     ("created", .str "2017-11-04T18:48:46.250Z")]

/-- The `Character` that validating `spec6Body` produces. -/
def spec6Character : Character :=
  ⟨1, "Rick Sanchez", "Alive", "Human", "", "Male",
   ⟨"Earth (C-137)", "https://.../location/1"⟩,
   ⟨"Earth (Replacement Dimension)", "https://.../location/20"⟩,
   "https://.../avatar/1.jpeg", ["https://.../episode/1"],
   "https://.../character/1", "2017-11-04T18:48:46.250Z"⟩

/-! ## A generic well-formed body and how `validate` maps it -/

/-- A response body with every schema key present, parameterized by the
value of each field.  Every well-formed Character body is of this shape. -/
def mkBody (id : Int)
    (name status species ty gender oname ourl lname lurl image : String)
    (eps : List String) (url created : String) : Json :=
  .obj
    [("id", .num id), ("name", .str name), ("status", .str status),
     ("species", .str species), ("type", .str ty), ("gender", .str gender),
     ("origin", .obj [("name", .str oname), ("url", .str ourl)]),
     ("location", .obj [("name", .str lname), ("url", .str lurl)]),
     ("image", .str image), ("episode", .arr (eps.map .str)),
     ("url", .str url), ("created", .str created)]

/-- `mkBody` with the `episode` key entirely absent. -/
def mkBodyNoEpisode (id : Int)
    (name status species ty gender oname ourl lname lurl image : String)
    (url created : String) : Json :=
  .obj
    [("id", .num id), ("name", .str name), ("status", .str status),
     ("species", .str species), ("type", .str ty), ("gender", .str gender),
     ("origin", .obj [("name", .str oname), ("url", .str ourl)]),
     ("location", .obj [("name", .str lname), ("url", .str lurl)]),
     ("image", .str image), ("url", .str url), ("created", .str created)]

theorem mapExcept_validateEpisodeElem (eps : List String)
    (he : ∀ s ∈ eps, isHttpUrl s = true) :
    mapExcept validateEpisodeElem (eps.map Json.str) =
      Except.ok (eps.map normalizeHttpUrl) := by
  induction eps with
  | nil => rfl
  | cons a as ih =>
      have ha : isHttpUrl a = true := he a (List.mem_cons_self a as)
      have has : ∀ s ∈ as, isHttpUrl s = true := fun s hs =>
        he s (List.mem_cons_of_mem a hs)
      simp [mapExcept, validateEpisodeElem, ha, ih has, pure, Except.pure,
        bind, Except.bind]

/-- Master lemma: validating a fully-populated body whose URL-typed values
all pass the URL check succeeds, stripping whitespace on the `Character`'s
own `str` fields, leaving the nested `origin.name`/`location.name`
unstripped, and normalizing every URL. -/
theorem validate_mkBody (id : Int)
    (name status species ty gender oname ourl lname lurl image : String)
    (eps : List String) (url created : String)
    (ho : isHttpUrl ourl = true) (hl : isHttpUrl lurl = true)
    (hi : isHttpUrl image = true) (hu : isHttpUrl url = true)
    (he : ∀ s ∈ eps, isHttpUrl s = true) :
    validate (mkBody id name status species ty gender oname ourl lname lurl
        image eps url created) =
      .ok ⟨id, pyStrip name, pyStrip status, pyStrip species, pyStrip ty,
           pyStrip gender, ⟨oname, normalizeHttpUrl ourl⟩,
           ⟨lname, normalizeHttpUrl lurl⟩, normalizeHttpUrl image,
           eps.map normalizeHttpUrl, normalizeHttpUrl url, pyStrip created⟩ := by
  simp [validate, mkBody, getIntField, getStrField, getUrlField, getObjField,
    getEpisodeField, validateLocationRef, Json.lookup, List.lookup,
    Character.config, CharacterOrigin.config, ho, hl, hi, hu,
    mapExcept_validateEpisodeElem eps he, bind, Except.bind, pure, Except.pure]

/-- `isHttpUrl` rejects the empty string (no scheme, no host). -/
theorem isHttpUrl_empty : isHttpUrl "" = false := by decide

/-! ## Claims -/

/-- C1: the claim states that an otherwise schema-conforming body whose
`origin.url` is the empty string validates successfully.  This is false:
`CharacterOrigin.url` is declared `HttpUrl`, and the empty string is not a
syntactically valid absolute URL, so validation fails.  Concretely, the
test-fixture body with `origin.url` replaced by `""` is rejected with a
`ValidationError` naming `origin.url`. -/
theorem c1_empty_origin_url_counterexample :
    validate (mkBody 1 "Rick Sanchez" "Alive" "Human" "" "Male"
      "Earth (C-137)" "" "Earth (Replacement Dimension)"
      "https://rickandmortyapi.com/api/location/20"
      "https://rickandmortyapi.com/api/character/avatar/1.jpeg"
      ["https://rickandmortyapi.com/api/episode/1"]
      "https://rickandmortyapi.com/api/character/1"
      "2017-11-04T18:48:46.250Z") =
      .error (.invalidUrl "origin.url") := by decide

/-- C1 (amended): for every input mapping in which `origin.url` or
`location.url` is the empty string (the other fields satisfying the schema,
which for the location case means a valid `origin.url`), `validate` fails
with a `ValidationError` naming the offending url field; the empty-string
url is treated as a malformed URL, not as a legitimate boundary case. -/
theorem c1_empty_url_rejected (id : Int)
    (name status species ty gender oname ourl lname lurl image : String)
    (eps : List String) (url created : String)
    (ho : isHttpUrl ourl = true) :
    validate (mkBody id name status species ty gender oname "" lname lurl
        image eps url created) =
      .error (.invalidUrl "origin.url") ∧
    validate (mkBody id name status species ty gender oname ourl lname ""
        image eps url created) =
      .error (.invalidUrl "location.url") := by
  constructor
  · simp [validate, mkBody, getIntField, getStrField, getObjField,
      validateLocationRef, Json.lookup, List.lookup, Character.config,
      CharacterOrigin.config, bind, Except.bind, pure, Except.pure,
      isHttpUrl_empty]
  · simp [validate, mkBody, getIntField, getStrField, getObjField,
      validateLocationRef, Json.lookup, List.lookup, Character.config,
      CharacterOrigin.config, bind, Except.bind, pure, Except.pure,
      isHttpUrl_empty, ho]

/-- Witness for `c1_empty_url_rejected` at the test-fixture field values:
an empty `origin.url` is rejected naming `origin.url`, and an empty
`location.url` (with a valid `origin.url`) is rejected naming
`location.url`. -/
theorem c1_empty_url_rejected_witness :
    isHttpUrl "https://rickandmortyapi.com/api/location/1" = true ∧
    (validate (mkBody 1 "Rick Sanchez" "Alive" "Human" "" "Male"
        "Earth (C-137)" "" "Earth (Replacement Dimension)"
        "https://rickandmortyapi.com/api/location/20"
        "https://rickandmortyapi.com/api/character/avatar/1.jpeg" []
        "https://rickandmortyapi.com/api/character/1"
        "2017-11-04T18:48:46.250Z") =
      .error (.invalidUrl "origin.url") ∧
     validate (mkBody 1 "Rick Sanchez" "Alive" "Human" "" "Male"
        "Earth (C-137)" "https://rickandmortyapi.com/api/location/1"
        "Earth (Replacement Dimension)" ""
        "https://rickandmortyapi.com/api/character/avatar/1.jpeg" []
        "https://rickandmortyapi.com/api/character/1"
        "2017-11-04T18:48:46.250Z") =
      .error (.invalidUrl "location.url")) :=
  ⟨by decide,
   c1_empty_url_rejected 1 "Rick Sanchez" "Alive" "Human" "" "Male"
     "Earth (C-137)" "https://rickandmortyapi.com/api/location/1"
     "Earth (Replacement Dimension)"
     "https://rickandmortyapi.com/api/location/20"
     "https://rickandmortyapi.com/api/character/avatar/1.jpeg" []
     "https://rickandmortyapi.com/api/character/1" "2017-11-04T18:48:46.250Z"
     (by decide)⟩

/-- C2: the claim states that the literal JSON body of spec §6, served with
status 200, makes `get_character(1)` return a Character with an episode
sequence of length 2.  This is false: the §6 body's `episode` array has
exactly one element, so the returned Character's episode sequence has
length 1. -/
theorem c2_spec6_episode_length_counterexample :
    getCharacterResponse ⟨200, spec6Body⟩ = .ok spec6Character ∧
    spec6Character.episode.length = 1 ∧ spec6Character.episode.length ≠ 2 :=
  ⟨rfl, rfl, by decide⟩

/-- C2 (amended): given the literal JSON body shown in spec §6 returned with
HTTP status 200, `get_character(1)` returns a Character with `id = 1`,
`name = "Rick Sanchez"`, `status = "Alive"`, `origin.name = "Earth (C-137)"`,
`location.name = "Earth (Replacement Dimension)"`, and an episode sequence of
length 1. -/
theorem c2_spec6_scenario :
    getCharacterResponse ⟨200, spec6Body⟩ = .ok spec6Character ∧
    spec6Character.id = 1 ∧
    spec6Character.name = "Rick Sanchez" ∧
    spec6Character.status = "Alive" ∧
    spec6Character.origin.name = "Earth (C-137)" ∧
    spec6Character.location.name = "Earth (Replacement Dimension)" ∧
    spec6Character.episode.length = 1 :=
  ⟨rfl, rfl, rfl, rfl, rfl, rfl, rfl⟩

/-- A well-formed body whose `image` URL has no path component. -/
def c3Body : Json :=
  mkBody 1 "Rick Sanchez" "Alive" "Human" "" "Male"
    "Earth (C-137)" "https://rickandmortyapi.com/api/location/1"
    "Earth (Replacement Dimension)" "https://rickandmortyapi.com/api/location/20"
    "https://example.com" []
    "https://rickandmortyapi.com/api/character/1" "2017-11-04T18:48:46.250Z"

/-- The `Character` that validating `c3Body` produces: its stored `image`
has gained a trailing slash. -/
def c3Character : Character :=
  ⟨1, "Rick Sanchez", "Alive", "Human", "", "Male",
   ⟨"Earth (C-137)", "https://rickandmortyapi.com/api/location/1"⟩,
   ⟨"Earth (Replacement Dimension)", "https://rickandmortyapi.com/api/location/20"⟩,
   "https://example.com/", [],
   "https://rickandmortyapi.com/api/character/1", "2017-11-04T18:48:46.250Z"⟩

/-- C3: the claim states that validating a well-formed body and
re-serializing preserves every field byte-for-byte up to whitespace trimming
and JSON formatting.  This is false: URL-typed fields are stored in
pydantic's normalized rendering.  Concretely, a body whose `image` is
`"https://example.com"` (well-formed: a syntactically valid absolute URL)
validates successfully, but re-serialization yields
`"https://example.com/"` — which differs from the input value and from its
whitespace-trimmed form. -/
theorem c3_roundtrip_counterexample :
    validate c3Body = .ok c3Character ∧
    c3Body.lookup "image" = some (.str "https://example.com") ∧
    (Character.serialize c3Character).lookup "image" =
      some (.str "https://example.com/") ∧
    "https://example.com/" ≠ "https://example.com" ∧
    "https://example.com/" ≠ pyStrip "https://example.com" :=
  ⟨rfl, rfl, rfl, by decide, by decide⟩

/-- C3 (amended): for every well-formed Character body, validating and then
re-serializing preserves every field value byte-for-byte except for
surrounding-whitespace trimming of the `Character`'s string fields, JSON
formatting differences, and pydantic's URL normalization of the URL-typed
fields (`origin.url`, `location.url`, `image`, the `episode` elements and
`url`). -/
theorem c3_roundtrip (id : Int)
    (name status species ty gender oname ourl lname lurl image : String)
    (eps : List String) (url created : String)
    (ho : isHttpUrl ourl = true) (hl : isHttpUrl lurl = true)
    (hi : isHttpUrl image = true) (hu : isHttpUrl url = true)
    (he : ∀ s ∈ eps, isHttpUrl s = true) (c : Character)
    (hv : validate (mkBody id name status species ty gender oname ourl lname
        lurl image eps url created) = .ok c) :
    Character.serialize c =
      mkBody id (pyStrip name) (pyStrip status) (pyStrip species) (pyStrip ty)
        (pyStrip gender) oname (normalizeHttpUrl ourl) lname
        (normalizeHttpUrl lurl) (normalizeHttpUrl image)
        (eps.map normalizeHttpUrl) (normalizeHttpUrl url) (pyStrip created) := by
  rw [validate_mkBody id name status species ty gender oname ourl lname lurl
    image eps url created ho hl hi hu he] at hv
  injection hv with hc
  subst hc
  rfl

/-- Witness for `c3_roundtrip` at the concrete body `c3Body`. -/
theorem c3_roundtrip_witness :
    Character.serialize c3Character =
      mkBody 1 "Rick Sanchez" "Alive" "Human" "" "Male"
        "Earth (C-137)" "https://rickandmortyapi.com/api/location/1"
        "Earth (Replacement Dimension)"
        "https://rickandmortyapi.com/api/location/20"
        "https://example.com/" []
        "https://rickandmortyapi.com/api/character/1"
        "2017-11-04T18:48:46.250Z" :=
  c3_roundtrip 1 "Rick Sanchez" "Alive" "Human" "" "Male"
    "Earth (C-137)" "https://rickandmortyapi.com/api/location/1"
    "Earth (Replacement Dimension)" "https://rickandmortyapi.com/api/location/20"
    "https://example.com" []
    "https://rickandmortyapi.com/api/character/1" "2017-11-04T18:48:46.250Z"
    (by decide) (by decide) (by decide) (by decide)
    (by intro s hs; cases hs) c3Character rfl

/-- C4: for every response whose HTTP status lies outside the 2xx success
range, `get_character` fails with an `HTTPStatusError` carrying that status
code and the response body; the body is never parsed as a Character and no
Character is returned (`raise_for_status()` raises before
`Character.model_validate` runs). -/
theorem c4_non_success_status_error (status : Nat) (body : Json)
    (h : status < 200 ∨ 300 ≤ status) :
    getCharacterResponse ⟨status, body⟩ =
      .error (.httpStatusError status body) := by
  have hs : isSuccess status = false := by
    rcases h with h | h <;> simp [isSuccess] <;> omega
  simp [getCharacterResponse, hs]

/-- Witness for `c4_non_success_status_error`: a mocked 404 response with the
test suite's error body yields `HTTPStatusError` with code 404. -/
theorem c4_non_success_status_error_witness :
    (404 < 200 ∨ 300 ≤ 404) ∧
    getCharacterResponse ⟨404, .obj [("error", .str "Character not found")]⟩ =
      .error (.httpStatusError 404
        (.obj [("error", .str "Character not found")])) :=
  ⟨by decide,
   c4_non_success_status_error 404 (.obj [("error", .str "Character not found")])
     (by decide)⟩

/-- A concrete validated nested origin value (the origin of the test
fixture). -/
def c5Origin : CharacterOrigin :=
  ⟨"Earth (C-137)", "https://rickandmortyapi.com/api/location/1"⟩

/-- C5: the claim states that no field of a validated Character or of its
nested origin/location LocationRefs can be mutated.  This is false for the
nested models: `CharacterOrigin` and `CharacterLocation` declare no
`frozen` config, so pydantic permits attribute assignment on them.
Concretely, assigning `name = "Mars"` on a validated origin succeeds and
produces a changed value. -/
theorem c5_nested_mutation_counterexample :
    pySetAttr CharacterOrigin.config (fun o => { o with name := "Mars" })
        c5Origin =
      .ok ⟨"Mars", "https://rickandmortyapi.com/api/location/1"⟩ ∧
    (⟨"Mars", "https://rickandmortyapi.com/api/location/1"⟩ : CharacterOrigin)
      ≠ c5Origin := by
  exact ⟨rfl, by decide⟩

/-- C5 (amended): every attempted field assignment on the `Character` value
itself fails (its config is `frozen = True`), but the nested
`CharacterOrigin`/`CharacterLocation` values are not frozen, so their fields
remain mutable after construction. -/
theorem c5_character_frozen (update : Character → Character) (c : Character) :
    pySetAttr Character.config update c = .error .frozenInstance ∧
    CharacterOrigin.config.frozen = false ∧
    CharacterLocation.config.frozen = false :=
  ⟨rfl, rfl, rfl⟩

/-- C6: an input mapping with every required key but no `episode` key
validates successfully, and the resulting Character's `episode` equals the
empty sequence (`Field(default_factory=list)`). -/
theorem c6_absent_episode_defaults_empty (id : Int)
    (name status species ty gender oname ourl lname lurl image url created :
      String)
    (ho : isHttpUrl ourl = true) (hl : isHttpUrl lurl = true)
    (hi : isHttpUrl image = true) (hu : isHttpUrl url = true) :
    validate (mkBodyNoEpisode id name status species ty gender oname ourl
        lname lurl image url created) =
      .ok ⟨id, pyStrip name, pyStrip status, pyStrip species, pyStrip ty,
           pyStrip gender, ⟨oname, normalizeHttpUrl ourl⟩,
           ⟨lname, normalizeHttpUrl lurl⟩, normalizeHttpUrl image, [],
           normalizeHttpUrl url, pyStrip created⟩ := by
  simp [validate, mkBodyNoEpisode, getIntField, getStrField, getUrlField,
    getObjField, getEpisodeField, validateLocationRef, Json.lookup,
    List.lookup, Character.config, CharacterOrigin.config, ho, hl, hi, hu,
    bind, Except.bind, pure, Except.pure]

/-- Witness for `c6_absent_episode_defaults_empty` at the test-fixture field
values with the `episode` key removed. -/
theorem c6_absent_episode_witness :
    validate (mkBodyNoEpisode 1 "Rick Sanchez" "Alive" "Human" "" "Male"
        "Earth (C-137)" "https://rickandmortyapi.com/api/location/1"
        "Earth (Replacement Dimension)"
        "https://rickandmortyapi.com/api/location/20"
        "https://rickandmortyapi.com/api/character/avatar/1.jpeg"
        "https://rickandmortyapi.com/api/character/1"
        "2017-11-04T18:48:46.250Z") =
      .ok ⟨1, "Rick Sanchez", "Alive", "Human", "", "Male",
           ⟨"Earth (C-137)", "https://rickandmortyapi.com/api/location/1"⟩,
           ⟨"Earth (Replacement Dimension)",
            "https://rickandmortyapi.com/api/location/20"⟩,
           "https://rickandmortyapi.com/api/character/avatar/1.jpeg", [],
           "https://rickandmortyapi.com/api/character/1",
           "2017-11-04T18:48:46.250Z"⟩ :=
  c6_absent_episode_defaults_empty 1 "Rick Sanchez" "Alive" "Human" "" "Male"
    "Earth (C-137)" "https://rickandmortyapi.com/api/location/1"
    "Earth (Replacement Dimension)" "https://rickandmortyapi.com/api/location/20"
    "https://rickandmortyapi.com/api/character/avatar/1.jpeg"
    "https://rickandmortyapi.com/api/character/1" "2017-11-04T18:48:46.250Z"
    (by decide) (by decide) (by decide) (by decide)

/-- C7: a `get_character(id)` call on a client constructed with `base_url`
issues exactly one HTTP GET, to the URL `base_url ++ "/character/" ++` the
decimal rendering of `id`; in particular, with base url
`https://custom-api.example.com/api` and id 1 the request goes to
`https://custom-api.example.com/api/character/1`. -/
theorem c7_request_url (baseUrl : String) (characterId : Int) :
    getCharacterTrace baseUrl characterId =
      [⟨"GET", baseUrl ++ "/character/" ++ toString characterId⟩] ∧
    (getCharacterTrace baseUrl characterId).length = 1 ∧
    getCharacterTrace "https://custom-api.example.com/api" 1 =
      [⟨"GET", "https://custom-api.example.com/api/character/1"⟩] :=
  ⟨rfl, rfl, by decide⟩

/-- A well-formed body whose top-level `name` and nested `origin.name` both
carry surrounding whitespace. -/
def c8Body : Json :=
  mkBody 1 "  Rick Sanchez  " "Alive" "Human" "" "Male"
    "  Earth (C-137)  " "https://rickandmortyapi.com/api/location/1"
    "Earth (Replacement Dimension)" "https://rickandmortyapi.com/api/location/20"
    "https://rickandmortyapi.com/api/character/avatar/1.jpeg" []
    "https://rickandmortyapi.com/api/character/1" "2017-11-04T18:48:46.250Z"

/-- The `Character` that validating `c8Body` produces: its own `name` is
stripped, but the nested `origin.name` keeps its surrounding whitespace. -/
def c8Character : Character :=
  ⟨1, "Rick Sanchez", "Alive", "Human", "", "Male",
   ⟨"  Earth (C-137)  ", "https://rickandmortyapi.com/api/location/1"⟩,
   ⟨"Earth (Replacement Dimension)",
    "https://rickandmortyapi.com/api/location/20"⟩,
   "https://rickandmortyapi.com/api/character/avatar/1.jpeg", [],
   "https://rickandmortyapi.com/api/character/1", "2017-11-04T18:48:46.250Z"⟩

/-- C8: the claim states that every string-typed field, including the `name`
fields of `origin` and `location`, is stored whitespace-stripped.  This is
false for the nested fields: `str_strip_whitespace = True` is configured only
on `Character`, and `CharacterOrigin`/`CharacterLocation` declare no config,
so their `name` values keep surrounding whitespace.  Concretely, a body with
`origin.name = "  Earth (C-137)  "` validates to a Character whose
`origin.name` still carries the whitespace while its own `name` was
stripped. -/
theorem c8_nested_name_not_stripped_counterexample :
    validate c8Body = .ok c8Character ∧
    c8Character.origin.name = "  Earth (C-137)  " ∧
    c8Character.origin.name ≠ pyStrip "  Earth (C-137)  " ∧
    c8Character.name = pyStrip "  Rick Sanchez  " :=
  ⟨rfl, rfl, by decide, rfl⟩

/-- C8 (amended): for every input mapping accepted by `validate`, the
string-typed fields of the `Character` itself (`name`, `status`, `species`,
`type`, `gender`, `created`) equal the corresponding input value with
surrounding whitespace stripped, while the `name` fields of the nested
`origin` and `location` are stored exactly as given, unstripped. -/
theorem c8_strip_scope (id : Int)
    (name status species ty gender oname ourl lname lurl image : String)
    (eps : List String) (url created : String)
    (ho : isHttpUrl ourl = true) (hl : isHttpUrl lurl = true)
    (hi : isHttpUrl image = true) (hu : isHttpUrl url = true)
    (he : ∀ s ∈ eps, isHttpUrl s = true) (c : Character)
    (hv : validate (mkBody id name status species ty gender oname ourl lname
        lurl image eps url created) = .ok c) :
    c.name = pyStrip name ∧ c.status = pyStrip status ∧
    c.species = pyStrip species ∧ c.type = pyStrip ty ∧
    c.gender = pyStrip gender ∧ c.created = pyStrip created ∧
    c.origin.name = oname ∧ c.location.name = lname := by
  rw [validate_mkBody id name status species ty gender oname ourl lname lurl
    image eps url created ho hl hi hu he] at hv
  injection hv with hc
  subst hc
  exact ⟨rfl, rfl, rfl, rfl, rfl, rfl, rfl, rfl⟩

/-- Witness for `c8_strip_scope` at the concrete body `c8Body`. -/
theorem c8_strip_scope_witness :
    c8Character.name = "Rick Sanchez" ∧
    c8Character.status = "Alive" ∧
    c8Character.species = "Human" ∧
    c8Character.type = "" ∧
    c8Character.gender = "Male" ∧
    c8Character.created = "2017-11-04T18:48:46.250Z" ∧
    c8Character.origin.name = "  Earth (C-137)  " ∧
    c8Character.location.name = "Earth (Replacement Dimension)" :=
  c8_strip_scope 1 "  Rick Sanchez  " "Alive" "Human" "" "Male"
    "  Earth (C-137)  " "https://rickandmortyapi.com/api/location/1"
    "Earth (Replacement Dimension)" "https://rickandmortyapi.com/api/location/20"
    "https://rickandmortyapi.com/api/character/avatar/1.jpeg" []
    "https://rickandmortyapi.com/api/character/1" "2017-11-04T18:48:46.250Z"
    (by decide) (by decide) (by decide) (by decide)
    (by intro s hs; cases hs) c8Character rfl

/-- C9: `validate` performs no format check on `created`: whatever string it
holds — ISO-8601 or not — validation succeeds and stores that string
whitespace-stripped but otherwise unchanged (`created: str` in the source). -/
theorem c9_created_format_unchecked (id : Int)
    (name status species ty gender oname ourl lname lurl image : String)
    (eps : List String) (url created : String)
    (ho : isHttpUrl ourl = true) (hl : isHttpUrl lurl = true)
    (hi : isHttpUrl image = true) (hu : isHttpUrl url = true)
    (he : ∀ s ∈ eps, isHttpUrl s = true) :
    ∃ c, validate (mkBody id name status species ty gender oname ourl lname
        lurl image eps url created) = .ok c ∧ c.created = pyStrip created :=
  ⟨_, validate_mkBody id name status species ty gender oname ourl lname lurl
    image eps url created ho hl hi hu he, rfl⟩

/-- Witness for `c9_created_format_unchecked` with a `created` value that is
not an ISO-8601 timestamp. -/
theorem c9_created_format_unchecked_witness :
    ∃ c, validate (mkBody 1 "Rick Sanchez" "Alive" "Human" "" "Male"
        "Earth (C-137)" "https://rickandmortyapi.com/api/location/1"
        "Earth (Replacement Dimension)"
        "https://rickandmortyapi.com/api/location/20"
        "https://rickandmortyapi.com/api/character/avatar/1.jpeg" []
        "https://rickandmortyapi.com/api/character/1"
        " definitely not a timestamp ") =
      .ok c ∧ c.created = pyStrip " definitely not a timestamp " :=
  c9_created_format_unchecked 1 "Rick Sanchez" "Alive" "Human" "" "Male"
    "Earth (C-137)" "https://rickandmortyapi.com/api/location/1"
    "Earth (Replacement Dimension)" "https://rickandmortyapi.com/api/location/20"
    "https://rickandmortyapi.com/api/character/avatar/1.jpeg" []
    "https://rickandmortyapi.com/api/character/1" " definitely not a timestamp "
    (by decide) (by decide) (by decide) (by decide)
    (by intro s hs; cases hs)

/-- C10: `validate` does not enforce positivity of `id` (`id: int` in the
source): for every integer value of `id`, including zero and negatives,
validation succeeds and returns a Character with that id. -/
theorem c10_id_positivity_unchecked (id : Int)
    (name status species ty gender oname ourl lname lurl image : String)
    (eps : List String) (url created : String)
    (ho : isHttpUrl ourl = true) (hl : isHttpUrl lurl = true)
    (hi : isHttpUrl image = true) (hu : isHttpUrl url = true)
    (he : ∀ s ∈ eps, isHttpUrl s = true) :
    ∃ c, validate (mkBody id name status species ty gender oname ourl lname
        lurl image eps url created) = .ok c ∧ c.id = id :=
  ⟨_, validate_mkBody id name status species ty gender oname ourl lname lurl
    image eps url created ho hl hi hu he, rfl⟩

/-- Witness for `c10_id_positivity_unchecked` at the negative id `-7`. -/
theorem c10_id_positivity_unchecked_witness :
    ∃ c, validate (mkBody (-7) "Rick Sanchez" "Alive" "Human" "" "Male"
        "Earth (C-137)" "https://rickandmortyapi.com/api/location/1"
        "Earth (Replacement Dimension)"
        "https://rickandmortyapi.com/api/location/20"
        "https://rickandmortyapi.com/api/character/avatar/1.jpeg" []
        "https://rickandmortyapi.com/api/character/1"
        "2017-11-04T18:48:46.250Z") =
      .ok c ∧ c.id = -7 :=
  c10_id_positivity_unchecked (-7) "Rick Sanchez" "Alive" "Human" "" "Male"
    "Earth (C-137)" "https://rickandmortyapi.com/api/location/1"
    "Earth (Replacement Dimension)" "https://rickandmortyapi.com/api/location/20"
    "https://rickandmortyapi.com/api/character/avatar/1.jpeg" []
    "https://rickandmortyapi.com/api/character/1" "2017-11-04T18:48:46.250Z"
    (by decide) (by decide) (by decide) (by decide)
    (by intro s hs; cases hs)
